import Mathlib

/-!
# Verification of the question-aware sentiment classifier

Shallow embedding of the rule-based sentiment classifier of
`SC-Surevey-Analyzer` (`src/app.py`: `preprocess_response`,
`detect_question_context`, `detect_gap_indicators`, `detect_negation`,
`contains_keywords`, `new_contextual_sentiment`).

Modelling conventions:
* Python `float` arithmetic is modelled with `ℚ` (all constants in the
  pipeline are small decimal literals; no claim depends on binary rounding).
* The TextBlob polarity call is an external oracle
  `tb : String → Except PyError ℚ`; a `.error` result models the library
  raising, which the source catches (`except: base_polarity = 0.0`).
* Python strings are Lean `String`/`List Char`; `str.lower` is mapped
  `Char.toLower` (all data in scope is ASCII), `x in y` is substring
  containment, and the handful of fixed regular expressions used by the
  detectors are interpreted by a small backtracking matcher over an exact
  token-by-token transcription of each pattern (`re.search` semantics,
  with `\b`, `\s+`, `\w+`, literal characters and optional characters).
* `pandas.isna` / non-`str` inputs are modelled by the `PyVal` type.
-/

namespace SurveyAnalyzer

/-- Python `None`/NaN/float/str inputs as they reach `preprocess_response`. -/
inductive PyVal where
  | str : String → PyVal
  | nan : PyVal
  | noneV : PyVal
  | num : ℚ → PyVal
deriving DecidableEq

/-- Marker for an exception raised inside the external TextBlob call. -/
inductive PyError where
  | err : PyError
deriving DecidableEq

/-- The external lexical-polarity oracle (`TextBlob(text).sentiment.polarity`);
`.error` models the library raising an exception. -/
abbrev TBOracle := String → Except PyError ℚ

/-- The apostrophe character (used by the `don't` / `can't` regexes). -/
def apos : Char := Char.ofNat 39

/-- Python `\s` for the ASCII whitespace characters (space, tab, newline,
carriage return, vertical tab, form feed). -/
def pyIsSpace (c : Char) : Bool :=
  c == ' ' || c == '\t' || c == '\n' || c == '\r' || c == '\x0b' || c == '\x0c'

/-- Python `\w` (ASCII fragment): letters, digits, underscore. -/
def isWordChar (c : Char) : Bool :=
  c.isAlpha || c.isDigit || c == '_'

/-- Python `str.lower` on a character list (ASCII). -/
def pyLower (s : List Char) : List Char := s.map Char.toLower

/-- `leadsWith n h` : the needle `n` is an initial segment of `h`. -/
def leadsWith : List Char → List Char → Bool
  | [], _ => true
  | _ :: _, [] => false
  | a :: as, b :: bs => a == b && leadsWith as bs

/-- Python substring test `n in h` (empty needle always matches). -/
def containsSub (n : List Char) : List Char → Bool
  | [] => n.isEmpty
  | c :: t => leadsWith n (c :: t) || containsSub n t

/-- Worker for Python `str.split()`: split on whitespace runs, drop empties. -/
def splitAux : List Char → List Char → List (List Char)
  | [], acc => if acc.isEmpty then [] else [acc.reverse]
  | c :: t, acc =>
      if pyIsSpace c then
        (if acc.isEmpty then splitAux t [] else acc.reverse :: splitAux t [])
      else splitAux t (c :: acc)

/-- Python `str.split()` (no separator argument). -/
def pySplit (s : List Char) : List (List Char) := splitAux s []

/-- `' '.join(words)` on character lists. -/
def joinSpace (ws : List (List Char)) : List Char := List.intercalate [' '] ws

/-- `preprocess_response` (src/app.py): non-string/NaN input becomes `""`;
otherwise replace underscores with spaces and collapse whitespace
(`' '.join(response.split())`). -/
def preprocessResponse : PyVal → String
  | .str s =>
      let cleaned := s.toList.map (fun c => if c == '_' then ' ' else c)
      String.mk (joinSpace (pySplit cleaned))
  | _ => ""

/-! ## A tiny regex interpreter

Each of the classifier's fixed patterns is a sequence of these tokens.
`matchToks` is a backtracking matcher consuming fuel (the fuel passed by
`reSearch` strictly dominates the token-plus-input measure, so it is never
exhausted); `reSearch` tries every start position, i.e. `re.search`. -/

inductive RTok where
  | lit : Char → RTok
  | opt : Char → RTok
  | wplus : RTok
  | splus : RTok
  | bound : RTok
deriving DecidableEq

/-- `\b`: exactly one of the two neighbouring characters is a word char. -/
def boundaryOk (prev next : Option Char) : Bool :=
  (match prev with | none => false | some c => isWordChar c)
    != (match next with | none => false | some c => isWordChar c)

def matchToks : Nat → List RTok → Option Char → List Char → Bool
  | 0, _, _, _ => false
  | _ + 1, [], _, _ => true
  | f + 1, .bound :: ps, prev, s =>
      boundaryOk prev s.head? && matchToks f ps prev s
  | _ + 1, .lit _ :: _, _, [] => false
  | f + 1, .lit c :: ps, _, b :: t => b == c && matchToks f ps (some b) t
  | f + 1, .opt _ :: ps, prev, [] => matchToks f ps prev []
  | f + 1, .opt c :: ps, prev, b :: t =>
      (b == c && matchToks f ps (some b) t) || matchToks f ps prev (b :: t)
  | _ + 1, .wplus :: _, _, [] => false
  | f + 1, .wplus :: ps, _, b :: t =>
      isWordChar b && (matchToks f ps (some b) t || matchToks f (.wplus :: ps) (some b) t)
  | _ + 1, .splus :: _, _, [] => false
  | f + 1, .splus :: ps, _, b :: t =>
      pyIsSpace b && (matchToks f ps (some b) t || matchToks f (.splus :: ps) (some b) t)

def reSearchAux (fuel : Nat) (p : List RTok) : Option Char → List Char → Bool
  | prev, [] => matchToks fuel p prev []
  | prev, c :: t => matchToks fuel p prev (c :: t) || reSearchAux fuel p (some c) t

/-- `re.search(p, s)` as a Boolean: try to match at every position. -/
def reSearch (p : List RTok) (s : List Char) : Bool :=
  reSearchAux (p.length + s.length + 1) p none s

/-- Literal characters of a string as regex tokens. -/
def rlits (s : String) : List RTok := s.toList.map RTok.lit

/-! ## The classifier's fixed patterns (transcribed from src/app.py) -/

/-- `\bmore\s+\w+` -/
def patMore : List RTok := [.bound] ++ rlits "more" ++ [.splus, .wplus]
/-- `\bbetter\s+\w+` -/
def patBetter : List RTok := [.bound] ++ rlits "better" ++ [.splus, .wplus]
/-- `\bneed\s+\w+` -/
def patNeed : List RTok := [.bound] ++ rlits "need" ++ [.splus, .wplus]
/-- `\bneeds?\s+to\b` -/
def patNeedsTo : List RTok :=
  [.bound] ++ rlits "need" ++ [.opt 's', .splus] ++ rlits "to" ++ [.bound]
/-- `\bshould\s+\w+` -/
def patShould : List RTok := [.bound] ++ rlits "should" ++ [.splus, .wplus]
/-- `\blacking\b` -/
def patLacking : List RTok := [.bound] ++ rlits "lacking" ++ [.bound]
/-- `\bnot\s+enough\b` -/
def patNotEnough : List RTok :=
  [.bound] ++ rlits "not" ++ [.splus] ++ rlits "enough" ++ [.bound]
/-- `\binsufficient\b` -/
def patInsufficient : List RTok := [.bound] ++ rlits "insufficient" ++ [.bound]
/-- `\bwithout\b` -/
def patWithout : List RTok := [.bound] ++ rlits "without" ++ [.bound]
/-- `\blisten\s+more\b` -/
def patListenMore : List RTok :=
  [.bound] ++ rlits "listen" ++ [.splus] ++ rlits "more" ++ [.bound]
/-- `\bactive\s+listening\b` -/
def patActiveListening : List RTok :=
  [.bound] ++ rlits "active" ++ [.splus] ++ rlits "listening" ++ [.bound]
/-- `\bimprove\s+\w+` -/
def patImprove : List RTok := [.bound] ++ rlits "improve" ++ [.splus, .wplus]

/-- `GAP_PATTERNS` (src/app.py). -/
def gapPatterns : List (List RTok) :=
  [patMore, patBetter, patNeed, patNeedsTo, patShould, patLacking,
   patNotEnough, patInsufficient, patWithout, patListenMore,
   patActiveListening, patImprove]

/-- `\bno\s+\w+` -/
def patNoWord : List RTok := [.bound] ++ rlits "no" ++ [.splus, .wplus]
/-- `\bnot\b` -/
def patNot : List RTok := [.bound] ++ rlits "not" ++ [.bound]
/-- `\bdon\'?t\b` -/
def patDont : List RTok :=
  [.bound] ++ rlits "don" ++ [.opt apos] ++ rlits "t" ++ [.bound]
/-- `\bcan\'?t\b` -/
def patCant : List RTok :=
  [.bound] ++ rlits "can" ++ [.opt apos] ++ rlits "t" ++ [.bound]
/-- `\bnever\b` -/
def patNever : List RTok := [.bound] ++ rlits "never" ++ [.bound]
/-- `\bstop\b` -/
def patStop : List RTok := [.bound] ++ rlits "stop" ++ [.bound]
/-- `\bavoid\b` -/
def patAvoid : List RTok := [.bound] ++ rlits "avoid" ++ [.bound]

/-- `NEGATION_PATTERNS` (src/app.py). -/
def negationPatterns : List (List RTok) :=
  [patNoWord, patNot, patDont, patCant, patNever, patStop, patAvoid]

/-- `\bnot sure\b` -/
def patNotSure : List RTok := [.bound] ++ rlits "not sure" ++ [.bound]
/-- `\bunsure\b` -/
def patUnsure : List RTok := [.bound] ++ rlits "unsure" ++ [.bound]
/-- `\bdon\'?t know\b` -/
def patDontKnow : List RTok :=
  [.bound] ++ rlits "don" ++ [.opt apos] ++ rlits "t know" ++ [.bound]
/-- `\buncertain\b` -/
def patUncertain : List RTok := [.bound] ++ rlits "uncertain" ++ [.bound]

/-- `UNCERTAINTY_PATTERNS` (local to `new_contextual_sentiment`). -/
def uncertaintyPatterns : List (List RTok) :=
  [patNotSure, patUnsure, patDontKnow, patUncertain]

/-- `PAIN_KEYWORDS` (src/app.py). -/
def painKeywords : List String :=
  ["challenge", "problem", "issue", "struggle", "difficult", "hard",
   "frustrat", "pain", "blocker", "obstacle", "barrier", "constraint",
   "overwork", "stretch", "burn", "overwhelm", "stress", "complain",
   "incompetent", "poor", "bad", "lack", "miss", "unavail", "inadequate"]

/-- `STRENGTH_KEYWORDS` (src/app.py). -/
def strengthKeywords : List String :=
  ["trust", "empathy", "connection", "relationship", "collaborat", "support",
   "innovat", "creative", "expert", "knowledge", "skill", "passion",
   "dedicated", "commit", "quality", "excellent", "strong", "effective"]

/-- `QUESTION_CONTEXT['challenges'] + QUESTION_CONTEXT['stop_doing']`
(the phrase lists scanned for negative bias, in source order). -/
def questionContextNeg : List String :=
  ["What are the biggest challenges", "operational challenges",
   "biggest_challenges", "What should we STOP doing", "stop doing", "STOP"]

/-- `QUESTION_CONTEXT['start_doing'] + QUESTION_CONTEXT['human_value']`
(the phrase lists scanned for positive bias, in source order). -/
def questionContextPos : List String :=
  ["What should we START doing", "start doing", "START",
   "uniquely human", "human value", "humans"]

/-- `detect_question_context` (src/app.py): `none` stands for a
`pd.isna` question; negative-bias phrases are tested before
positive-bias phrases, everything else is `neutral`. -/
def detectQuestionContext : Option String → String
  | none => "neutral"
  | some q =>
      let ql := pyLower q.toList
      if questionContextNeg.any (fun p => containsSub (pyLower p.toList) ql) then
        "negative_bias"
      else if questionContextPos.any (fun p => containsSub (pyLower p.toList) ql) then
        "positive_bias"
      else "neutral"

/-- `detect_gap_indicators` (src/app.py). -/
def detectGapIndicators (response : String) : Bool :=
  if response == "" then false
  else gapPatterns.any (fun p => reSearch p (pyLower response.toList))

/-- `detect_negation` (src/app.py): the raw, context-free negation scan. -/
def detectNegation (response : String) : Bool :=
  if response == "" then false
  else negationPatterns.any (fun p => reSearch p (pyLower response.toList))

/-- The inline uncertainty scan of `new_contextual_sentiment`
(`any(re.search(pattern, response_lower) ...)`), on the lowered text. -/
def hasUncertainty (rl : List Char) : Bool :=
  uncertaintyPatterns.any (fun p => reSearch p rl)

/-- `contains_keywords` (src/app.py): substring test for each keyword. -/
def containsKeywords (response : String) (kws : List String) : Bool :=
  if response == "" then false
  else kws.any (fun k => containsSub k.toList (pyLower response.toList))

/-- `TEXTBLOB_OVERRIDES` (local dict of `new_contextual_sentiment`), as the
ordered association list matching Python dict insertion order. -/
def textblobOverrides : List (String × ℚ) :=
  [("knowledge base", 1/10), ("base", 0), ("poc", 0),
   ("having a knowledge base", 1/5)]

/-- The override scan: first phrase (in table order) contained in the
lowercased response wins. -/
def findOverride (rl : List Char) : Option ℚ :=
  match textblobOverrides.find? (fun kv => containsSub kv.1.toList rl) with
  | some kv => some kv.2
  | none => none

/-- The listening-gap override condition of RULE 7 (src/app.py line 539):
`'listen' in response_lower and ('more' in response_lower or 'active' in
response_lower)`. -/
def listenCond (rl : List Char) : Bool :=
  containsSub ("listen".toList) rl
    && (containsSub ("more".toList) rl || containsSub ("active".toList) rl)

/-- The POC override condition of RULE 7 (src/app.py line 545):
`'poc' in response_lower and question_context == 'negative_bias'`. -/
def pocCond (rl : List Char) (qc : String) : Bool :=
  containsSub ("poc".toList) rl && qc == "negative_bias"

/-- The context-aware negation value used by the pipeline: the raw scan,
except that under `positive_bias` a response containing `"stop"` (and not
matching the uncertainty scan) has its negation flag cleared
(src/app.py lines 493-499). -/
def effectiveNegation (cleaned : String) (qc : String) : Bool :=
  let hasNeg := detectNegation cleaned
  let rl := pyLower cleaned.toList
  if qc == "positive_bias" && containsSub ("stop".toList) rl && !hasUncertainty rl then
    false
  else hasNeg

/-- The `sentiment_score` accumulator after RULES 1-7 of
`new_contextual_sentiment` (src/app.py lines 472-556), for a non-empty
cleaned response.  Each `let s := ...` line is one rule's update of the
Python variable. -/
def scoreOf (basePolarity : ℚ) (cleaned : String) (qc : String) : ℚ :=
  let rl := pyLower cleaned.toList
  let s := basePolarity
  -- RULE 1: question context bias
  let s := if qc == "negative_bias" then s - 2/5
           else if qc == "positive_bias" then s + 1/2 else s
  -- RULE 2: gap/need indicators
  let s := if detectGapIndicators cleaned then s - 1/2 else s
  -- RULE 2.5 / RULE 3: uncertainty forces score 0, else negation subtracts
  let s := if hasUncertainty rl then 0
           else if effectiveNegation cleaned qc then s - 2/5 else s
  -- RULE 4: pain point keywords
  let s := if containsKeywords cleaned painKeywords then s - 3/10 else s
  -- RULE 5: strength keywords, suppressed when a gap indicator is present
  let s := if containsKeywords cleaned strengthKeywords
              && !detectGapIndicators cleaned then s + 3/10 else s
  -- RULE 6: short responses inherit more question context
  let s := if (pySplit cleaned.toList).length ≤ 3 then
             (if qc == "negative_bias" then s - 1/5
              else if qc == "positive_bias" then s + 1/5 else s)
           else s
  -- RULE 7: listening-gap and POC overrides (assignments, able to clobber)
  let s := if listenCond rl then -(3/5) else s
  let s := if pocCond rl qc then -(1/2) else s
  s

/-- The `confidence` accumulator after RULES 1-7 of
`new_contextual_sentiment`, in lockstep with `scoreOf` (the conditions are
identical; `confidence` never depends on the score). -/
def confOf (cleaned : String) (qc : String) : ℚ :=
  let rl := pyLower cleaned.toList
  let c : ℚ := 1/2
  -- RULE 1: assignment, not max
  let c := if qc == "negative_bias" then (4:ℚ)/5
           else if qc == "positive_bias" then (7:ℚ)/10 else c
  -- RULE 2: assignment
  let c := if detectGapIndicators cleaned then (9:ℚ)/10 else c
  -- RULE 2.5 / RULE 3: assignments
  let c := if hasUncertainty rl then (17:ℚ)/20
           else if effectiveNegation cleaned qc then (17:ℚ)/20 else c
  -- RULE 4: max
  let c := if containsKeywords cleaned painKeywords then max c (4/5) else c
  -- RULE 5: max
  let c := if containsKeywords cleaned strengthKeywords
              && !detectGapIndicators cleaned then max c (4/5) else c
  -- RULE 6 does not change confidence
  -- RULE 7: assignments
  let c := if listenCond rl then (19:ℚ)/20 else c
  let c := if pocCond rl qc then (9:ℚ)/10 else c
  c

/-- The `reasoning_parts` list built by RULES 1-7 of
`new_contextual_sentiment`, in lockstep with `scoreOf`. -/
def partsOf (cleaned : String) (qc : String) : List String :=
  let rl := pyLower cleaned.toList
  let p : List String := []
  let p := if qc == "negative_bias" then p ++ ["Question has negative context"]
           else if qc == "positive_bias" then p ++ ["Question has positive context"]
           else p
  let p := if detectGapIndicators cleaned then
             p ++ ["Contains gap/need indicator (more/better/need/should)"]
           else p
  let p := if hasUncertainty rl then p ++ ["Expresses uncertainty"]
           else if effectiveNegation cleaned qc then
             p ++ ["Contains negation pattern (no/not/stop/can't)"]
           else p
  let p := if containsKeywords cleaned painKeywords then
             p ++ ["Contains pain point keywords"]
           else p
  let p := if containsKeywords cleaned strengthKeywords
              && !detectGapIndicators cleaned then
             p ++ ["Contains strength keywords"]
           else p
  let p := if (pySplit cleaned.toList).length ≤ 3 then
             (if qc == "negative_bias" then p ++ ["Short response in negative context"]
              else if qc == "positive_bias" then p ++ ["Short response in positive context"]
              else p)
           else p
  let p := if listenCond rl then
             p ++ ["Listening gap indicator (listen more/active listening)"]
           else p
  let p := if pocCond rl qc then p ++ ["POC in negative context (pain point)"] else p
  p

/-- Final thresholding: `> 0.1 → Positive`, `< -0.1 → Negative`, else
`Neutral`. -/
def labelOf (score : ℚ) : String :=
  if score > 1/10 then "Positive"
  else if score < -(1/10) then "Negative"
  else "Neutral"

/-- Two-decimal rendering of the baseline polarity, for the fallback
reasoning string (`f-string` `:.2f`; decimal rounding here stands in for
Python float formatting, which no claim observes). -/
def fmt2 (x : ℚ) : String :=
  let n : Int := round (x * 100)
  let m := n.natAbs
  (if n < 0 then "-" else "") ++ toString (m / 100) ++ "."
    ++ (if m % 100 < 10 then "0" else "") ++ toString (m % 100)

/-- `new_contextual_sentiment` (src/app.py lines 421-562).  The TextBlob
call is the oracle `tb`; its exception (`.error`) is caught and degraded
to baseline polarity `0.0` exactly as the source's `try/except` does, so
an `Except.error` result would only arise from an uncaught exception. -/
def newContextualSentiment (tb : TBOracle) (response : PyVal)
    (questionText : Option String) (questionContext : String) :
    Except PyError (String × ℚ × String) :=
  let cleaned := preprocessResponse response
  if cleaned == "" then Except.ok ("Neutral", 1/2, "Empty response")
  else
    let rl := pyLower cleaned.toList
    let baseE : Except PyError ℚ :=
      match findOverride rl with
      | some p => Except.ok p
      | none =>
          match tb cleaned with
          | Except.ok p => Except.ok p
          | Except.error _ => Except.ok 0
    match baseE with
    | Except.error e => Except.error e
    | Except.ok basePolarity =>
        let rparts := partsOf cleaned questionContext
        let rparts :=
          if rparts.isEmpty then ["TextBlob polarity: " ++ fmt2 basePolarity]
          else rparts
        Except.ok (labelOf (scoreOf basePolarity cleaned questionContext),
          confOf cleaned questionContext, String.intercalate "; " rparts)

/-- One row of `analyze_sentiment` (src/app.py): detect the question's
context, then classify the response under it. -/
def analyzeResponseSentiment (tb : TBOracle) (response : PyVal)
    (question : Option String) : Except PyError (String × ℚ × String) :=
  newContextualSentiment tb response question (detectQuestionContext question)

/-- A TextBlob oracle returning a constant polarity (used at concrete
inputs; `0.5` is what the library's lexicon yields for phrases whose only
scored word is `"more"`). -/
def tbConst (q : ℚ) : TBOracle := fun _ => Except.ok q

/-- A TextBlob oracle that always raises. -/
def tbRaise : TBOracle := fun _ => Except.error PyError.err

/-- The baseline polarity actually used by the pipeline: override value if
an override phrase occurs, otherwise the oracle's answer, with a raising
oracle degraded to `0.0`. -/
def basePolarityOf (tb : TBOracle) (cleaned : String) : ℚ :=
  match findOverride (pyLower cleaned.toList) with
  | some p => p
  | none =>
      match tb cleaned with
      | Except.ok p => p
      | Except.error _ => 0

/-- Pure mirror of `new_contextual_sentiment` (the `questionText` argument
is never read by the source body, so it is dropped here). -/
def sentTriple (tb : TBOracle) (response : PyVal) (questionContext : String) :
    String × ℚ × String :=
  let cleaned := preprocessResponse response
  if cleaned == "" then ("Neutral", 1/2, "Empty response")
  else
    let base := basePolarityOf tb cleaned
    let rparts := partsOf cleaned questionContext
    let rparts :=
      if rparts.isEmpty then ["TextBlob polarity: " ++ fmt2 base]
      else rparts
    (labelOf (scoreOf base cleaned questionContext),
      confOf cleaned questionContext, String.intercalate "; " rparts)

/-- The classifier never escapes with an exception: it always produces the
pure mirror's triple. -/
lemma ncs_ok (tb : TBOracle) (resp : PyVal) (q : Option String) (qc : String) :
    newContextualSentiment tb resp q qc = Except.ok (sentTriple tb resp qc) := by
  unfold newContextualSentiment sentTriple basePolarityOf
  cases h : (preprocessResponse resp == "")
  · simp only [h, Bool.false_eq_true, if_false]
    cases hfo : findOverride (pyLower (preprocessResponse resp).toList)
    · cases htb : tb (preprocessResponse resp) <;> simp
    · simp
  · simp [h]

/-! ## Helper lemmas -/

lemma labelOf_mem (s : ℚ) :
    labelOf s = "Positive" ∨ labelOf s = "Negative" ∨ labelOf s = "Neutral" := by
  unfold labelOf
  split_ifs <;> simp

lemma labelOf_not_pos (s : ℚ) (h : s ≤ 1/10) : labelOf s ≠ "Positive" := by
  unfold labelOf
  rw [if_neg (not_lt.mpr h)]
  split_ifs <;> decide

lemma labelOf_of_neg (s : ℚ) (h : s < -(1/10)) : labelOf s = "Negative" := by
  unfold labelOf
  rw [if_neg (by linarith : ¬ (1/10 < s)), if_pos h]

lemma labelOf_zero : labelOf 0 = "Neutral" := by
  unfold labelOf
  norm_num

lemma findOverride_le {rl : List Char} {p : ℚ}
    (h : findOverride rl = some p) : p ≤ 3/5 := by
  unfold findOverride at h
  cases hfind : List.find? (fun kv => containsSub kv.1.toList rl) textblobOverrides with
  | none => rw [hfind] at h; exact absurd h (by simp)
  | some kv =>
      rw [hfind] at h
      have hmem := List.mem_of_find?_eq_some hfind
      have hp : kv.2 = p := by simpa using h
      rw [← hp]
      simp only [textblobOverrides, List.mem_cons, List.mem_singleton] at hmem
      rcases hmem with h' | h' | h' | h' | h' <;> first
        | (rw [h']; norm_num)
        | exact absurd h' (by simp)

lemma basePolarityOf_le {tb : TBOracle} {cleaned : String}
    (htb : ∀ p, tb cleaned = Except.ok p → p ≤ 3/5) :
    basePolarityOf tb cleaned ≤ 3/5 := by
  unfold basePolarityOf
  cases hfo : findOverride (pyLower cleaned.toList) with
  | some p => exact findOverride_le hfo
  | none =>
      cases htc : tb cleaned with
      | ok p => exact htb p htc
      | error _ => norm_num

lemma effectiveNegation_of_raw_false {cleaned : String} (qc : String)
    (h : detectNegation cleaned = false) : effectiveNegation cleaned qc = false := by
  simp only [effectiveNegation]
  split_ifs <;> simp [h]

lemma hasUncertainty_empty : hasUncertainty (pyLower ("" : String).toList) = false := by
  decide

lemma cleaned_ne_empty_of_uncertainty {cleaned : String}
    (h : hasUncertainty (pyLower cleaned.toList) = true) : (cleaned == "") = false := by
  cases hc : (cleaned == "") with
  | false => rfl
  | true =>
      have : cleaned = "" := by simpa using hc
      rw [this] at h
      rw [hasUncertainty_empty] at h
      exact absurd h (by simp)

lemma cleaned_ne_empty_of_sub {cleaned : String} {n : List Char}
    (hn : n.isEmpty = false)
    (h : containsSub n (pyLower cleaned.toList) = true) : (cleaned == "") = false := by
  cases hc : (cleaned == "") with
  | false => rfl
  | true =>
      have hce : cleaned = "" := by simpa using hc
      rw [hce] at h
      have : containsSub n (pyLower ("" : String).toList) = n.isEmpty := rfl
      rw [this, hn] at h
      exact absurd h (by simp)

lemma cleaned_ne_empty_of_gap {cleaned : String}
    (h : detectGapIndicators cleaned = true) : (cleaned == "") = false := by
  cases hc : (cleaned == "") with
  | false => rfl
  | true =>
      unfold detectGapIndicators at h
      rw [hc] at h
      simp at h

set_option maxHeartbeats 1000000 in
lemma confOf_mem (cleaned qc : String) :
    confOf cleaned qc = 1/2 ∨ confOf cleaned qc = 7/10
    ∨ confOf cleaned qc = 4/5 ∨ confOf cleaned qc = 17/20
    ∨ confOf cleaned qc = 9/10 ∨ confOf cleaned qc = 19/20 := by
  dsimp only [confOf]
  split_ifs <;> norm_num [max_def]

set_option maxHeartbeats 1000000 in
lemma scoreOf_le_of_gap {base : ℚ} {cleaned qc : String}
    (hg : detectGapIndicators cleaned = true)
    (hq : (qc == "positive_bias") = false)
    (hb : base ≤ 3/5) :
    scoreOf base cleaned qc ≤ 1/10 := by
  dsimp only [scoreOf]
  simp only [hg, hq, Bool.not_true, Bool.and_false, Bool.false_eq_true, if_false, if_true]
  split_ifs <;> linarith

lemma scoreOf_of_uncertain (base : ℚ) {cleaned qc : String}
    (hu : hasUncertainty (pyLower cleaned.toList) = true)
    (hp : containsKeywords cleaned painKeywords = false)
    (hs : containsKeywords cleaned strengthKeywords = false)
    (hl : listenCond (pyLower cleaned.toList) = false)
    (hpc : pocCond (pyLower cleaned.toList) qc = false)
    (hshort : 3 < (pySplit cleaned.toList).length
      ∨ ((qc == "negative_bias") = false ∧ (qc == "positive_bias") = false)) :
    scoreOf base cleaned qc = 0 := by
  dsimp only [scoreOf]
  simp only [hu, hp, hs, hl, hpc, Bool.false_and, Bool.false_eq_true, if_false, if_true]
  rcases hshort with hw | ⟨h1, h2⟩
  · rw [if_neg (by omega)]
  · simp [h1, h2]

set_option maxHeartbeats 1000000 in
lemma confOf_ge_of_gap {cleaned qc : String}
    (hg : detectGapIndicators cleaned = true) :
    17/20 ≤ confOf cleaned qc := by
  dsimp only [confOf]
  simp only [hg, Bool.not_true, Bool.and_false, Bool.false_eq_true, if_false, if_true]
  split_ifs <;> norm_num [max_def]

set_option maxHeartbeats 1000000 in
lemma confOf_ge_of_gap_pure {cleaned qc : String}
    (hg : detectGapIndicators cleaned = true)
    (hu : hasUncertainty (pyLower cleaned.toList) = false)
    (hn : effectiveNegation cleaned qc = false) :
    9/10 ≤ confOf cleaned qc := by
  dsimp only [confOf]
  simp only [hg, hu, hn, Bool.not_true, Bool.and_false, Bool.false_eq_true, if_false, if_true]
  split_ifs <;> norm_num [max_def]

lemma scoreOf_of_listen (base : ℚ) {cleaned : String} (qc : String)
    (hl : listenCond (pyLower cleaned.toList) = true) :
    scoreOf base cleaned qc
      = if pocCond (pyLower cleaned.toList) qc then -(1/2) else -(3/5) := by
  dsimp only [scoreOf]
  simp only [hl, if_true]

lemma confOf_of_listen {cleaned : String} (qc : String)
    (hl : listenCond (pyLower cleaned.toList) = true) :
    confOf cleaned qc
      = if pocCond (pyLower cleaned.toList) qc then (9:ℚ)/10 else 19/20 := by
  dsimp only [confOf]
  simp only [hl, if_true]

lemma confOf_of_poc {cleaned : String} (qc : String)
    (hpc : pocCond (pyLower cleaned.toList) qc = true) :
    confOf cleaned qc = 9/10 := by
  dsimp only [confOf]
  simp only [hpc, if_true]

set_option maxHeartbeats 1000000 in
lemma confOf_of_unc_neg {cleaned : String} (qc : String)
    (h : hasUncertainty (pyLower cleaned.toList) = true
       ∨ effectiveNegation cleaned qc = true)
    (hl : listenCond (pyLower cleaned.toList) = false)
    (hpc : pocCond (pyLower cleaned.toList) qc = false) :
    confOf cleaned qc = 17/20 := by
  dsimp only [confOf]
  simp only [hl, hpc, Bool.false_eq_true, if_false]
  cases hu : hasUncertainty (pyLower cleaned.toList) with
  | true =>
      simp only [hu, if_true]
      split_ifs <;> norm_num [max_def]
  | false =>
      rcases h with h | h
      · rw [hu] at h
        exact absurd h (by simp)
      · simp only [hu, h, Bool.false_eq_true, if_false, if_true]
        split_ifs <;> norm_num [max_def]

lemma sentTriple_fst_mem (tb : TBOracle) (resp : PyVal) (qc : String) :
    (sentTriple tb resp qc).1 = "Positive" ∨ (sentTriple tb resp qc).1 = "Negative"
    ∨ (sentTriple tb resp qc).1 = "Neutral" := by
  dsimp only [sentTriple]
  split_ifs
  · simp
  · exact labelOf_mem _
  · exact labelOf_mem _

lemma basePolarityOf_raise_eq (cleaned : String) :
    basePolarityOf tbRaise cleaned = basePolarityOf (tbConst 0) cleaned := by
  unfold basePolarityOf tbRaise tbConst
  cases findOverride (pyLower cleaned.toList) <;> rfl

lemma containsSub_of_leadsWith {n l : List Char} (h : leadsWith n l = true) :
    containsSub n l = true := by
  cases l with
  | nil =>
      cases n with
      | nil => rfl
      | cons a as => simp [leadsWith] at h
  | cons c t => unfold containsSub; rw [h, Bool.true_or]

lemma containsSub_right_of_leadsWith_append {xs ys : List Char} :
    ∀ l : List Char, leadsWith (xs ++ ys) l = true → containsSub ys l = true := by
  induction xs with
  | nil => exact fun l h => containsSub_of_leadsWith h
  | cons a as ih =>
      intro l h
      cases l with
      | nil => simp [leadsWith] at h
      | cons b t =>
          simp only [List.cons_append, leadsWith, Bool.and_eq_true] at h
          have ht := ih t h.2
          unfold containsSub
          rw [ht, Bool.or_true]

lemma containsSub_right_of_append {xs ys : List Char} :
    ∀ l : List Char, containsSub (xs ++ ys) l = true → containsSub ys l = true := by
  intro l
  induction l with
  | nil =>
      intro h
      unfold containsSub at h ⊢
      simp only [List.isEmpty_eq_true, List.append_eq_nil] at h
      simp [h.2]
  | cons c t ih =>
      intro h
      unfold containsSub at h
      rcases Bool.or_eq_true_iff.mp h with h' | h'
      · exact containsSub_right_of_leadsWith_append _ h'
      · unfold containsSub
        rw [ih h', Bool.or_true]

lemma sentTriple_ne_empty {tb : TBOracle} {resp : PyVal} {qc : String}
    (hne : (preprocessResponse resp == "") = false) :
    sentTriple tb resp qc
      = (labelOf (scoreOf (basePolarityOf tb (preprocessResponse resp))
            (preprocessResponse resp) qc),
         confOf (preprocessResponse resp) qc,
         String.intercalate "; "
           (if (partsOf (preprocessResponse resp) qc).isEmpty
            then ["TextBlob polarity: "
                    ++ fmt2 (basePolarityOf tb (preprocessResponse resp))]
            else partsOf (preprocessResponse resp) qc)) := by
  dsimp only [sentTriple]
  simp only [hne, Bool.false_eq_true, if_false]

lemma findOverride_kb {rl : List Char}
    (h : containsSub ("knowledge base".toList) rl = true) :
    findOverride rl = some (1/10) := by
  simp only [findOverride, textblobOverrides, List.find?_cons, h, if_true]

/-! ## Claim theorems -/

/-- C3: for every response (string, NaN, None or numeric), every question
and every question context, `new_contextual_sentiment` returns an
`(sentiment, confidence, reasoning)` triple with one of the three fixed
labels and never raises — even for an oracle that always raises; moreover
a raising TextBlob call is degraded internally to baseline polarity `0.0`
(the result coincides with the constant-zero oracle's). -/
theorem claim_C3_totality (tb : TBOracle) (resp : PyVal) (q : Option String)
    (qc : String) :
    (∃ s c r, newContextualSentiment tb resp q qc = Except.ok (s, c, r)
       ∧ (s = "Positive" ∨ s = "Negative" ∨ s = "Neutral"))
    ∧ newContextualSentiment tbRaise resp q qc
        = newContextualSentiment (tbConst 0) resp q qc := by
  constructor
  · rw [ncs_ok]
    exact ⟨(sentTriple tb resp qc).1, (sentTriple tb resp qc).2.1,
      (sentTriple tb resp qc).2.2, rfl, sentTriple_fst_mem tb resp qc⟩
  · rw [ncs_ok, ncs_ok]
    refine congrArg Except.ok ?_
    dsimp only [sentTriple]
    rw [basePolarityOf_raise_eq]

lemma sentTriple_conf_mem (tb : TBOracle) (resp : PyVal) (qc : String) :
    (sentTriple tb resp qc).2.1 = 1/2 ∨ (sentTriple tb resp qc).2.1 = 7/10
    ∨ (sentTriple tb resp qc).2.1 = 4/5 ∨ (sentTriple tb resp qc).2.1 = 17/20
    ∨ (sentTriple tb resp qc).2.1 = 9/10 ∨ (sentTriple tb resp qc).2.1 = 19/20 := by
  dsimp only [sentTriple]
  split_ifs
  · norm_num
  · exact confOf_mem _ _
  · exact confOf_mem _ _

/-- C10: the confidence returned by `new_contextual_sentiment` always lies
in the finite set `{0.5, 0.7, 0.8, 0.85, 0.9, 0.95}`, hence in the closed
interval `[0.5, 0.95]`, and in particular never reaches `1.0`. -/
theorem claim_C10_confidence_range (tb : TBOracle) (resp : PyVal)
    (q : Option String) (qc : String) :
    ∃ s c r, newContextualSentiment tb resp q qc = Except.ok (s, c, r)
      ∧ (c = 1/2 ∨ c = 7/10 ∨ c = 4/5 ∨ c = 17/20 ∨ c = 9/10 ∨ c = 19/20)
      ∧ 1/2 ≤ c ∧ c ≤ 19/20 := by
  rw [ncs_ok]
  refine ⟨(sentTriple tb resp qc).1, (sentTriple tb resp qc).2.1,
    (sentTriple tb resp qc).2.2, rfl, sentTriple_conf_mem tb resp qc, ?_, ?_⟩
  all_goals rcases sentTriple_conf_mem tb resp qc with h | h | h | h | h | h <;>
    rw [h] <;> norm_num

/-- C5 (amended): under `positive_bias`, a response containing the
substring `"stop"` and not matching the uncertainty scan has its negation
flag cleared ENTIRELY — all negation cues are suppressed together, not
only the `"stop"` cue; in every other situation the pipeline's negation
flag equals the raw scan `detect_negation`. -/
theorem claim_C5_stop_suppression (cleaned qc : String) :
    effectiveNegation cleaned qc
      = (detectNegation cleaned
          && !(qc == "positive_bias"
               && containsSub ("stop".toList) (pyLower cleaned.toList)
               && !hasUncertainty (pyLower cleaned.toList))) := by
  dsimp only [effectiveNegation]
  cases h : (qc == "positive_bias"
      && containsSub ("stop".toList) (pyLower cleaned.toList)
      && !hasUncertainty (pyLower cleaned.toList))
  · simp [h]
  · simp [h]

/-- C5 counterexample to the claim as stated: `"do not stop"` under
`positive_bias` matches the separate negation cue `\bnot\b` and contains
`"stop"` without uncertainty, yet the pipeline's negation flag is `false`
— the non-`stop` cue is suppressed too. -/
theorem claim_C5_cex :
    detectNegation "do not stop" = true
    ∧ reSearch patNot (pyLower "do not stop".toList) = true
    ∧ containsSub ("stop".toList) (pyLower "do not stop".toList) = true
    ∧ hasUncertainty (pyLower "do not stop".toList) = false
    ∧ effectiveNegation "do not stop" "positive_bias" = false := by
  exact ⟨by decide, by decide, by decide, by decide, by decide⟩

/-- C8: `detect_question_context` is total with exactly the three values
`negative_bias` / `positive_bias` / `neutral`; an absent (`none`) or empty
question yields `neutral`; and whenever any challenges/stop-doing phrase
occurs (case-insensitively) in the question the result is `negative_bias`
— the negative list is tested first, so it wins even if a positive phrase
also occurs. -/
theorem claim_C8_question_context :
    (∀ q : Option String, detectQuestionContext q = "negative_bias"
       ∨ detectQuestionContext q = "positive_bias"
       ∨ detectQuestionContext q = "neutral")
    ∧ detectQuestionContext none = "neutral"
    ∧ detectQuestionContext (some "") = "neutral"
    ∧ ∀ s : String,
        questionContextNeg.any
          (fun p => containsSub (pyLower p.toList) (pyLower s.toList)) = true →
        detectQuestionContext (some s) = "negative_bias" := by
  refine ⟨?_, rfl, by decide, ?_⟩
  · intro q
    cases q with
    | none => right; right; rfl
    | some s =>
        dsimp only [detectQuestionContext]
        split_ifs <;> simp
  · intro s h
    dsimp only [detectQuestionContext]
    rw [if_pos h]

/-- C8 witness: a question containing both a stop-doing and a start-doing
phrase is classified `negative_bias` (negative checked first). -/
theorem claim_C8_witness :
    detectQuestionContext
      (some "What should we STOP doing, and what should we START doing?")
      = "negative_bias" :=
  claim_C8_question_context.2.2.2
    "What should we STOP doing, and what should we START doing?" (by decide)

/-- C9: for a short (≤ 3 word) cleaned response that triggers no gap,
negation, uncertainty, keyword or domain-override rule, the internal score
under `positive_bias` is at least the score under `negative_bias`, for the
same baseline polarity. -/
theorem claim_C9_context_asymmetry (base : ℚ) (cleaned : String)
    (hw : (pySplit cleaned.toList).length ≤ 3)
    (hg : detectGapIndicators cleaned = false)
    (hn : detectNegation cleaned = false)
    (hu : hasUncertainty (pyLower cleaned.toList) = false)
    (hp : containsKeywords cleaned painKeywords = false)
    (hs : containsKeywords cleaned strengthKeywords = false)
    (hl : listenCond (pyLower cleaned.toList) = false)
    (hpoc : containsSub ("poc".toList) (pyLower cleaned.toList) = false) :
    scoreOf base cleaned "negative_bias" ≤ scoreOf base cleaned "positive_bias" := by
  have hn1 := effectiveNegation_of_raw_false "negative_bias" hn
  have hn2 := effectiveNegation_of_raw_false "positive_bias" hn
  have hpc1 : pocCond (pyLower cleaned.toList) "negative_bias" = false := by
    unfold pocCond; rw [hpoc]; rfl
  have hpc2 : pocCond (pyLower cleaned.toList) "positive_bias" = false := by
    unfold pocCond; rw [hpoc]; rfl
  have e1 : (("negative_bias" : String) == "negative_bias") = true := by decide
  have e2 : (("negative_bias" : String) == "positive_bias") = false := by decide
  have e3 : (("positive_bias" : String) == "negative_bias") = false := by decide
  have e4 : (("positive_bias" : String) == "positive_bias") = true := by decide
  dsimp only [scoreOf]
  simp only [hg, hu, hn1, hn2, hp, hs, hl, hpc1, hpc2, e1, e2, e3, e4, hw,
    Bool.false_eq_true, Bool.false_and, Bool.and_false, Bool.not_true,
    if_false, if_true, ite_true, ite_false]
  linarith

/-- C9 witness at the concrete one-word response `"banana"` with baseline
polarity `0`. -/
theorem claim_C9_witness :
    scoreOf 0 "banana" "negative_bias" ≤ scoreOf 0 "banana" "positive_bias" :=
  claim_C9_context_asymmetry 0 "banana" (by decide) (by decide) (by decide)
    (by decide) (by decide) (by decide) (by decide) (by decide)

/-- C1 (amended): a response containing both a gap pattern and a strength
keyword never classifies `Positive`, PROVIDED the question context is not
`positive_bias` and the baseline polarity the oracle can return is at most
`0.6` (the override table's values all satisfy this).  Without these two
provisos the claim is false — see the counterexample. -/
theorem claim_C1_gap_over_strength (tb : TBOracle) (resp : PyVal)
    (q : Option String)
    (hg : detectGapIndicators (preprocessResponse resp) = true)
    (hs : containsKeywords (preprocessResponse resp) strengthKeywords = true)
    (hq : detectQuestionContext q ≠ "positive_bias")
    (htb : ∀ p, tb (preprocessResponse resp) = Except.ok p → p ≤ 3/5) :
    ∃ s c r, newContextualSentiment tb resp q (detectQuestionContext q)
        = Except.ok (s, c, r) ∧ s ≠ "Positive" := by
  have hne := cleaned_ne_empty_of_gap hg
  have hq' : (detectQuestionContext q == "positive_bias") = false := by
    cases hb : (detectQuestionContext q == "positive_bias")
    · rfl
    · exact absurd (by simpa using hb) hq
  have hscore := scoreOf_le_of_gap hg hq' (basePolarityOf_le htb)
  rw [ncs_ok, sentTriple_ne_empty hne]
  exact ⟨_, _, _, rfl, labelOf_not_pos _ hscore⟩

/-- C1 counterexample to the claim as stated: `"more support"` contains the
gap pattern `\bmore\s+\w+` and the strength keyword `support`, yet under
the `positive_bias` question `"What should we START doing"` (with the
lexical oracle returning `0.5`, the library's value for `"more"`) the
pipeline returns `Positive`: `0.5 + 0.5 − 0.5 + 0.2 = 0.7 > 0.1`. -/
theorem claim_C1_cex :
    detectGapIndicators (preprocessResponse (PyVal.str "more support")) = true
    ∧ containsKeywords (preprocessResponse (PyVal.str "more support"))
        strengthKeywords = true
    ∧ newContextualSentiment (tbConst (1/2)) (PyVal.str "more support")
        (some "What should we START doing")
        (detectQuestionContext (some "What should we START doing"))
      = Except.ok ("Positive", 9/10,
          "Question has positive context; Contains gap/need indicator (more/better/need/should); Short response in positive context") := by
  refine ⟨by decide, by decide, ?_⟩
  have hq : detectQuestionContext (some "What should we START doing")
      = "positive_bias" := by decide
  have hclean : preprocessResponse (PyVal.str "more support") = "more support" := by
    decide
  rw [hq, ncs_ok]
  refine congrArg Except.ok ?_
  dsimp only [sentTriple]
  rw [hclean]
  have e0 : (("more support" : String) == "") = false := by decide
  have hfo : findOverride (pyLower "more support".toList) = none := by decide
  have hg : detectGapIndicators "more support" = true := by decide
  have hu : hasUncertainty (pyLower "more support".toList) = false := by decide
  have hn : effectiveNegation "more support" "positive_bias" = false := by decide
  have hp : containsKeywords "more support" painKeywords = false := by decide
  have hs : containsKeywords "more support" strengthKeywords = true := by decide
  have hl : listenCond (pyLower "more support".toList) = false := by decide
  have hpc : pocCond (pyLower "more support".toList) "positive_bias" = false := by
    decide
  have hwc : (pySplit "more support".toList).length = 2 := by decide
  have e3 : (("positive_bias" : String) == "negative_bias") = false := by decide
  have e4 : (("positive_bias" : String) == "positive_bias") = true := by decide
  have hb : basePolarityOf (tbConst (1/2)) "more support" = 1/2 := by
    unfold basePolarityOf tbConst; rw [hfo]
  simp only [e0, Bool.false_eq_true, if_false, hb, scoreOf, confOf, partsOf,
    hg, hu, hn, hp, hs, hl, hpc, hwc, e3, e4, Bool.true_and, Bool.false_and,
    Bool.and_false, Bool.not_true, if_true, ite_true, ite_false]
  norm_num [labelOf, String.intercalate]
  decide

/-- C1 witness for the amended theorem: `"more support"` under the
`negative_bias` question `"What are the biggest challenges"` with the
oracle returning `0.5` is not `Positive`. -/
theorem claim_C1_witness :
    ∃ s c r, newContextualSentiment (tbConst (1/2)) (PyVal.str "more support")
        (some "What are the biggest challenges")
        (detectQuestionContext (some "What are the biggest challenges"))
      = Except.ok (s, c, r) ∧ s ≠ "Positive" :=
  claim_C1_gap_over_strength (tbConst (1/2)) (PyVal.str "more support")
    (some "What are the biggest challenges") (by decide) (by decide) (by decide)
    (fun p hp => by
      injection hp with h
      rw [← h]
      norm_num)

/-- C2 (amended): a response matching an uncertainty pattern has its score
reset to `0.0` and the negation step skipped, and the returned sentiment
is `Neutral` PROVIDED the response contains no pain or strength keyword,
triggers neither the listening-gap nor the POC override, and either has
more than 3 words or the detected question context is `neutral`.  Without
the extra provisos the claim is false — the later keyword, short-response
and override rules still move the score (see the counterexample). -/
theorem claim_C2_uncertainty_neutral (tb : TBOracle) (resp : PyVal)
    (q : Option String)
    (hu : hasUncertainty (pyLower (preprocessResponse resp).toList) = true)
    (hp : containsKeywords (preprocessResponse resp) painKeywords = false)
    (hs : containsKeywords (preprocessResponse resp) strengthKeywords = false)
    (hl : listenCond (pyLower (preprocessResponse resp).toList) = false)
    (hpc : pocCond (pyLower (preprocessResponse resp).toList)
        (detectQuestionContext q) = false)
    (hshort : 3 < (pySplit (preprocessResponse resp).toList).length
        ∨ detectQuestionContext q = "neutral") :
    ∃ c r, newContextualSentiment tb resp q (detectQuestionContext q)
        = Except.ok ("Neutral", c, r) := by
  have hne := cleaned_ne_empty_of_uncertainty hu
  have hshort' : 3 < (pySplit (preprocessResponse resp).toList).length
      ∨ ((detectQuestionContext q == "negative_bias") = false
         ∧ (detectQuestionContext q == "positive_bias") = false) := by
    rcases hshort with h | h
    · exact Or.inl h
    · exact Or.inr ⟨by rw [h]; decide, by rw [h]; decide⟩
  have hz := scoreOf_of_uncertain
    (basePolarityOf tb (preprocessResponse resp)) hu hp hs hl hpc hshort'
  rw [ncs_ok, sentTriple_ne_empty hne, hz, labelOf_zero]
  exact ⟨_, _, rfl⟩

/-- C2 counterexample to the claim as stated: `"Not sure"` matches the
uncertainty pattern, yet on the `negative_bias` question `"What are the
biggest challenges"` the short-response rule afterwards pushes the reset
score to `-0.2`, so the pipeline returns `Negative`, not `Neutral`. -/
theorem claim_C2_cex :
    hasUncertainty (pyLower (preprocessResponse (PyVal.str "Not sure")).toList)
      = true
    ∧ newContextualSentiment (tbConst 0) (PyVal.str "Not sure")
        (some "What are the biggest challenges")
        (detectQuestionContext (some "What are the biggest challenges"))
      = Except.ok ("Negative", 17/20,
          "Question has negative context; Expresses uncertainty; Short response in negative context") := by
  refine ⟨by decide, ?_⟩
  have hq : detectQuestionContext (some "What are the biggest challenges")
      = "negative_bias" := by decide
  have hclean : preprocessResponse (PyVal.str "Not sure") = "Not sure" := by decide
  rw [hq, ncs_ok]
  refine congrArg Except.ok ?_
  dsimp only [sentTriple]
  rw [hclean]
  have e0 : (("Not sure" : String) == "") = false := by decide
  have hfo : findOverride (pyLower "Not sure".toList) = none := by decide
  have hg : detectGapIndicators "Not sure" = false := by decide
  have hu : hasUncertainty (pyLower "Not sure".toList) = true := by decide
  have hp : containsKeywords "Not sure" painKeywords = false := by decide
  have hs : containsKeywords "Not sure" strengthKeywords = false := by decide
  have hl : listenCond (pyLower "Not sure".toList) = false := by decide
  have hpc : pocCond (pyLower "Not sure".toList) "negative_bias" = false := by
    decide
  have hwc : (pySplit "Not sure".toList).length = 2 := by decide
  have e1 : (("negative_bias" : String) == "negative_bias") = true := by decide
  have hb : basePolarityOf (tbConst 0) "Not sure" = 0 := by
    unfold basePolarityOf tbConst; rw [hfo]
  simp only [e0, Bool.false_eq_true, if_false, hb, scoreOf, confOf, partsOf,
    hg, hu, hp, hs, hl, hpc, hwc, e1, Bool.true_and, Bool.false_and,
    Bool.and_false, Bool.not_true, Bool.not_false, if_true, ite_true, ite_false]
  norm_num [labelOf, String.intercalate]
  decide

/-- C2 witness for the amended theorem: the four-word `"Not sure about it"`
on a `negative_bias` question stays `Neutral`. -/
theorem claim_C2_witness :
    ∃ c r, newContextualSentiment (tbConst 0) (PyVal.str "Not sure about it")
        (some "What are the biggest challenges")
        (detectQuestionContext (some "What are the biggest challenges"))
      = Except.ok ("Neutral", c, r) :=
  claim_C2_uncertainty_neutral (tbConst 0) (PyVal.str "Not sure about it")
    (some "What are the biggest challenges") (by decide) (by decide) (by decide)
    (by decide) (by decide) (Or.inl (by decide))

/-- C4 (amended): a response containing `"listen"` together with `"more"`
or `"active"` is forced to score `-0.6` with confidence `0.95` and is
classified `Negative` regardless of every earlier signal — but the LATER
POC override can still rewrite score/confidence to `-0.5` / `0.9` when the
response also contains `"poc"` under `negative_bias`; the sentiment is
`Negative` in both cases, the confidence is `0.95` only when the POC
override does not fire afterwards. -/
theorem claim_C4_listening_override (tb : TBOracle) (resp : PyVal)
    (q : Option String) (qc : String)
    (hl : listenCond (pyLower (preprocessResponse resp).toList) = true) :
    ∃ r, newContextualSentiment tb resp q qc
      = Except.ok ("Negative",
          (if pocCond (pyLower (preprocessResponse resp).toList) qc
           then (9 : ℚ)/10 else 19/20), r) := by
  have hsub : containsSub ("listen".toList)
      (pyLower (preprocessResponse resp).toList) = true := by
    have h2 := hl
    unfold listenCond at h2
    simp only [Bool.and_eq_true] at h2
    exact h2.1
  have hne := cleaned_ne_empty_of_sub (by decide) hsub
  have hsc := scoreOf_of_listen
    (basePolarityOf tb (preprocessResponse resp)) qc hl
  have hcf := confOf_of_listen qc hl
  have hlab : labelOf (scoreOf (basePolarityOf tb (preprocessResponse resp))
      (preprocessResponse resp) qc) = "Negative" := by
    rw [hsc]
    split_ifs
    · exact labelOf_of_neg _ (by norm_num)
    · exact labelOf_of_neg _ (by norm_num)
  rw [ncs_ok, sentTriple_ne_empty hne, hlab, hcf]
  exact ⟨_, rfl⟩

set_option maxRecDepth 8000 in
/-- C4 counterexample to the claim as stated (confidence exactly `0.95`
regardless of other overrides): `"Listen more to the POC"` on the
`negative_bias` STOP-doing question triggers the listening override, but
the POC override then lowers the confidence to `0.9`. -/
theorem claim_C4_cex :
    listenCond (pyLower
      (preprocessResponse (PyVal.str "Listen more to the POC")).toList) = true
    ∧ newContextualSentiment (tbConst 0) (PyVal.str "Listen more to the POC")
        (some "What should we STOP doing today?")
        (detectQuestionContext (some "What should we STOP doing today?"))
      = Except.ok ("Negative", 9/10,
          "Question has negative context; Contains gap/need indicator (more/better/need/should); Listening gap indicator (listen more/active listening); POC in negative context (pain point)")
    ∧ ¬((9 : ℚ)/10 = 19/20) := by
  refine ⟨by decide, ?_, by norm_num⟩
  have hq : detectQuestionContext (some "What should we STOP doing today?")
      = "negative_bias" := by decide
  have hclean : preprocessResponse (PyVal.str "Listen more to the POC")
      = "Listen more to the POC" := by decide
  rw [hq, ncs_ok]
  refine congrArg Except.ok ?_
  dsimp only [sentTriple]
  rw [hclean]
  have e0 : (("Listen more to the POC" : String) == "") = false := by decide
  have hfo : findOverride (pyLower "Listen more to the POC".toList) = some 0 := by
    rfl
  have hg : detectGapIndicators "Listen more to the POC" = true := by decide
  have hu : hasUncertainty (pyLower "Listen more to the POC".toList) = false := by
    decide
  have hn : effectiveNegation "Listen more to the POC" "negative_bias" = false := by
    decide
  have hp : containsKeywords "Listen more to the POC" painKeywords = false := by
    decide
  have hs : containsKeywords "Listen more to the POC" strengthKeywords = false := by
    decide
  have hl : listenCond (pyLower "Listen more to the POC".toList) = true := by decide
  have hpc : pocCond (pyLower "Listen more to the POC".toList) "negative_bias"
      = true := by decide
  have hwc : (pySplit "Listen more to the POC".toList).length = 5 := by decide
  have e1 : (("negative_bias" : String) == "negative_bias") = true := by decide
  have hb : basePolarityOf (tbConst 0) "Listen more to the POC" = 0 := by
    unfold basePolarityOf; rw [hfo]
  simp only [e0, Bool.false_eq_true, if_false, hb, scoreOf, confOf, partsOf,
    hg, hu, hn, hp, hs, hl, hpc, hwc, e1, Bool.true_and, Bool.false_and,
    Bool.and_false, Bool.not_true, Bool.not_false, if_true, ite_true, ite_false]
  norm_num [labelOf, String.intercalate]
  decide

set_option maxRecDepth 8000 in
/-- C4 witness for the amended theorem: `"Active listening"` on the
positive-bias uniquely-human question is `Negative` (no POC override, so
confidence branch `0.95`). -/
theorem claim_C4_witness :
    ∃ r, newContextualSentiment (tbConst 0) (PyVal.str "Active listening")
        (some "what becomes the most important, uniquely human value")
        (detectQuestionContext
          (some "what becomes the most important, uniquely human value"))
      = Except.ok ("Negative",
          (if pocCond
              (pyLower (preprocessResponse (PyVal.str "Active listening")).toList)
              (detectQuestionContext
                (some "what becomes the most important, uniquely human value"))
           then (9 : ℚ)/10 else 19/20), r) :=
  claim_C4_listening_override (tbConst 0) (PyVal.str "Active listening")
    (some "what becomes the most important, uniquely human value") _ (by decide)

/-- C6 (amended): when the gap detector fires, the confidence is set to
`0.9` by direct assignment, and a later uncertainty or negation detection
OVERWRITES it to `0.85` (the source assigns instead of taking a max), so
the returned confidence is at least `0.85`, not necessarily `0.9`; it is
at least `0.9` again when neither uncertainty nor context-aware negation
fires, and also when a RULE 7 override fires afterwards (the listening
override assigns `0.95` unless the POC override then assigns `0.9`); when
uncertainty or negation fired and no RULE 7 override follows, the
confidence is exactly `0.85`. -/
theorem claim_C6_gap_confidence (tb : TBOracle) (resp : PyVal)
    (q : Option String) (qc : String)
    (hg : detectGapIndicators (preprocessResponse resp) = true) :
    ∃ s c r, newContextualSentiment tb resp q qc = Except.ok (s, c, r)
      ∧ 17/20 ≤ c
      ∧ (hasUncertainty (pyLower (preprocessResponse resp).toList) = false →
         effectiveNegation (preprocessResponse resp) qc = false →
         9/10 ≤ c)
      ∧ (listenCond (pyLower (preprocessResponse resp).toList) = true →
         9/10 ≤ c)
      ∧ (pocCond (pyLower (preprocessResponse resp).toList) qc = true →
         c = 9/10)
      ∧ ((hasUncertainty (pyLower (preprocessResponse resp).toList) = true
          ∨ effectiveNegation (preprocessResponse resp) qc = true) →
         listenCond (pyLower (preprocessResponse resp).toList) = false →
         pocCond (pyLower (preprocessResponse resp).toList) qc = false →
         c = 17/20) := by
  have hne := cleaned_ne_empty_of_gap hg
  rw [ncs_ok, sentTriple_ne_empty hne]
  refine ⟨_, _, _, rfl, confOf_ge_of_gap hg,
    fun hu hn => confOf_ge_of_gap_pure hg hu hn, fun hl => ?_, confOf_of_poc qc,
    fun h hl hpc => confOf_of_unc_neg qc h hl hpc⟩
  rw [confOf_of_listen qc hl]
  split_ifs <;> norm_num

/-- C6 counterexample to the claim as stated (gap implies confidence at
least `0.9`): `"No more meetings"` fires the gap detector (confidence
`0.9`) but the negation step afterwards assigns `0.85`, and the returned
confidence is `0.85 < 0.9`. -/
theorem claim_C6_cex :
    detectGapIndicators (preprocessResponse (PyVal.str "No more meetings")) = true
    ∧ newContextualSentiment (tbConst 0) (PyVal.str "No more meetings")
        none "neutral"
      = Except.ok ("Negative", 17/20,
          "Contains gap/need indicator (more/better/need/should); Contains negation pattern (no/not/stop/can't)")
    ∧ ¬((9 : ℚ)/10 ≤ 17/20) := by
  refine ⟨by decide, ?_, by norm_num⟩
  have hclean : preprocessResponse (PyVal.str "No more meetings")
      = "No more meetings" := by decide
  rw [ncs_ok]
  refine congrArg Except.ok ?_
  dsimp only [sentTriple]
  rw [hclean]
  have e0 : (("No more meetings" : String) == "") = false := by decide
  have hfo : findOverride (pyLower "No more meetings".toList) = none := by decide
  have hg : detectGapIndicators "No more meetings" = true := by decide
  have hu : hasUncertainty (pyLower "No more meetings".toList) = false := by decide
  have hn : effectiveNegation "No more meetings" "neutral" = true := by decide
  have hp : containsKeywords "No more meetings" painKeywords = false := by decide
  have hs : containsKeywords "No more meetings" strengthKeywords = false := by
    decide
  have hl : listenCond (pyLower "No more meetings".toList) = false := by decide
  have hpc : pocCond (pyLower "No more meetings".toList) "neutral" = false := by
    decide
  have hwc : (pySplit "No more meetings".toList).length = 3 := by decide
  have e5 : (("neutral" : String) == "negative_bias") = false := by decide
  have e6 : (("neutral" : String) == "positive_bias") = false := by decide
  have hb : basePolarityOf (tbConst 0) "No more meetings" = 0 := by
    unfold basePolarityOf tbConst; rw [hfo]
  simp only [e0, Bool.false_eq_true, if_false, hb, scoreOf, confOf, partsOf,
    hg, hu, hn, hp, hs, hl, hpc, hwc, e5, e6, Bool.true_and, Bool.false_and,
    Bool.and_false, Bool.not_true, Bool.not_false, if_true, ite_true, ite_false]
  norm_num [labelOf, String.intercalate]
  decide

/-- C6 witness for the amended theorem: `"Need better tools"` (gap, no
uncertainty, no negation, no RULE 7 override) keeps confidence at least
`0.9`. -/
theorem claim_C6_witness :
    ∃ s c r, newContextualSentiment (tbConst 0) (PyVal.str "Need better tools")
        none "neutral" = Except.ok (s, c, r)
      ∧ 17/20 ≤ c
      ∧ (hasUncertainty
          (pyLower (preprocessResponse (PyVal.str "Need better tools")).toList)
            = false →
         effectiveNegation (preprocessResponse (PyVal.str "Need better tools"))
            "neutral" = false →
         9/10 ≤ c)
      ∧ (listenCond
          (pyLower (preprocessResponse (PyVal.str "Need better tools")).toList)
            = true →
         9/10 ≤ c)
      ∧ (pocCond
          (pyLower (preprocessResponse (PyVal.str "Need better tools")).toList)
          "neutral" = true →
         c = 9/10)
      ∧ ((hasUncertainty
           (pyLower (preprocessResponse (PyVal.str "Need better tools")).toList)
             = true
          ∨ effectiveNegation (preprocessResponse (PyVal.str "Need better tools"))
             "neutral" = true) →
         listenCond
           (pyLower (preprocessResponse (PyVal.str "Need better tools")).toList)
             = false →
         pocCond
           (pyLower (preprocessResponse (PyVal.str "Need better tools")).toList)
           "neutral" = false →
         c = 17/20) :=
  claim_C6_gap_confidence (tbConst 0) (PyVal.str "Need better tools") none
    "neutral" (by decide)

/-- C7: the TextBlob override table is scanned in its fixed insertion
order `knowledge base (0.1), base (0.0), poc (0.0), having a knowledge
base (0.2)` with first match winning (in particular a response containing
`"having a knowledge base"` also contains `"knowledge base"`, so it
resolves to `0.1`, deterministically), and when any override matches, the
classifier's result does not depend on the lexical oracle at all. -/
theorem claim_C7_override_order (rl : List Char) :
    (containsSub ("knowledge base".toList) rl = true →
       findOverride rl = some (1/10))
    ∧ (containsSub ("base".toList) rl = true →
       containsSub ("knowledge base".toList) rl = false →
       findOverride rl = some 0)
    ∧ (containsSub ("poc".toList) rl = true →
       containsSub ("knowledge base".toList) rl = false →
       containsSub ("base".toList) rl = false →
       findOverride rl = some 0)
    ∧ (containsSub ("having a knowledge base".toList) rl = true →
       findOverride rl = some (1/10))
    ∧ ∀ (tb tb' : TBOracle) (resp : PyVal) (q : Option String) (qc : String),
        findOverride (pyLower (preprocessResponse resp).toList) ≠ none →
        newContextualSentiment tb resp q qc
          = newContextualSentiment tb' resp q qc := by
  refine ⟨findOverride_kb, ?_, ?_, ?_, ?_⟩
  · intro h hkb
    simp only [findOverride, textblobOverrides, List.find?_cons, h, hkb,
      Bool.false_eq_true, if_false, if_true]
  · intro h hkb hb
    simp only [findOverride, textblobOverrides, List.find?_cons, h, hkb, hb,
      Bool.false_eq_true, if_false, if_true]
  · intro h
    have hsplit : ("having a knowledge base".toList)
        = ("having a ".toList ++ "knowledge base".toList) := by decide
    rw [hsplit] at h
    exact findOverride_kb (containsSub_right_of_append rl h)
  · intro tb tb' resp q qc hne
    rw [ncs_ok, ncs_ok]
    refine congrArg Except.ok ?_
    have hbp : basePolarityOf tb (preprocessResponse resp)
        = basePolarityOf tb' (preprocessResponse resp) := by
      unfold basePolarityOf
      cases hfo : findOverride (pyLower (preprocessResponse resp).toList) with
      | none => exact absurd hfo hne
      | some p => rfl
    dsimp only [sentTriple]
    rw [hbp]

/-- C7 witness: each override branch at a concrete response, and the
oracle-independence of the pipeline on a response (`"poc"`) that hits the
override table (a raising oracle and a constant oracle coincide). -/
theorem claim_C7_witness :
    findOverride ("our knowledge base".toList) = some (1/10)
    ∧ findOverride ("all base poc".toList) = some 0
    ∧ findOverride ("poc only".toList) = some 0
    ∧ findOverride ("having a knowledge base".toList) = some (1/10)
    ∧ newContextualSentiment (tbConst (1/2)) (PyVal.str "poc") none "neutral"
        = newContextualSentiment tbRaise (PyVal.str "poc") none "neutral" :=
  ⟨(claim_C7_override_order ("our knowledge base".toList)).1 (by decide),
   (claim_C7_override_order ("all base poc".toList)).2.1 (by decide) (by decide),
   (claim_C7_override_order ("poc only".toList)).2.2.1 (by decide) (by decide)
     (by decide),
   (claim_C7_override_order ("having a knowledge base".toList)).2.2.2.1
     (by decide),
   (claim_C7_override_order []).2.2.2.2 (tbConst (1/2)) tbRaise (PyVal.str "poc")
     none "neutral" (by
       rw [show findOverride
            (pyLower (preprocessResponse (PyVal.str "poc")).toList)
            = some 0 from rfl]
       exact Option.some_ne_none 0)⟩

end SurveyAnalyzer
